import Mathlib

/-! Shallow embedding of the truss program's derivation and parsing core
(`src/Truss_Classes.py`).  Numeric values are idealised as exact rationals
(`ℚ`): Python floats are modelled without rounding error.  `math.hypot` and
`math.atan2` return irrational values in general; they are embedded as the
deterministic rational functions `hypotQ`/`atan2Q` below, which agree with the
source exactly on every input a claim evaluates (`hypotQ` takes the exact
square root on perfect squares); no claim verified here inspects an angle
value or a non-perfect-square length.  PyQt graphics handles (`graphic`
fields), the cached bounding `Rectangle` (`rct`), and the view widgets are
display-only state never read by the claims and are not modelled. -/

namespace Truss

/-- Embeds `Position` (Truss_Classes.py line 101): an (x, y, z) vector. -/
structure Position where
  x : ℚ
  y : ℚ
  z : ℚ
  deriving DecidableEq

/-- Embeds `Node` (line 269): a named point with a `Position`. -/
structure Node where
  name : String
  position : Position
  deriving DecidableEq

/-- Embeds `Link` (line 302): a member referencing two nodes by name, with
nullable derived fields (all `None` until set, as in the Python constructor). -/
structure Link where
  name : String
  node1_Name : String
  node2_Name : String
  length : Option ℚ
  angleRad : Option ℚ
  material : Option String
  width : Option ℚ
  thickness : Option ℚ
  weight : Option ℚ
  deriving DecidableEq

/-- Embeds `Material` (line 236): four nullable scalar properties. -/
structure Material where
  uts : Option ℚ
  ys : Option ℚ
  E : Option ℚ
  staticFactor : Option ℚ
  deriving DecidableEq

/-- Embeds `TrussModel` (line 442) minus the display-only `rct` cache. -/
structure TrussModel where
  title : Option String
  links : List Link
  nodes : List Node
  material : Material
  leftReaction : ℚ
  rightReaction : ℚ
  deriving DecidableEq

/-- Embeds `TrussModel.__init__` (line 454): empty collections, all-null
material, both reactions 0.0. -/
def emptyModel : TrussModel :=
  { title := none, links := [], nodes := [],
    material := { uts := none, ys := none, E := none, staticFactor := none },
    leftReaction := 0, rightReaction := 0 }

/-- Embeds `TrussModel.getNode` (line 468): first node whose name matches
exactly, else `None`. -/
def TrussModel.getNode (m : TrussModel) (nm : String) : Option Node :=
  m.nodes.find? (fun n => n.name == nm)

/-- ASCII lowering of a string, embedding Python `str.lower()` on the ASCII
inputs the program compares against (`"steel"`, `"left"`, `"right"`, record
keywords). -/
def strLower (s : String) : String :=
  String.mk (s.data.map Char.toLower)

/-- Exact rational square root on perfect squares (numerator and denominator
of the reduced fraction both perfect squares); `Nat.sqrt`-floor composite
otherwise.  Stand-in for the real square root inside `math.hypot`: every
length a claim evaluates is a perfect square, and no other claim depends on
the value returned here, only on it being a fixed function of its input. -/
def sqrtQ (q : ℚ) : ℚ :=
  (Nat.sqrt q.num.toNat : ℚ) / (Nat.sqrt q.den : ℚ)

/-- Embeds `math.hypot dx dy` = √(dx² + dy²), via `sqrtQ`. -/
def hypotQ (dx dy : ℚ) : ℚ :=
  sqrtQ (dx * dx + dy * dy)

/-- Deterministic rational stand-in for `math.atan2 y x` (the half-angle
tangent encoding, since π is irrational).  It is 0 at the origin and on the
positive x-axis exactly like `atan2`; no claim verified in this file inspects
any other angle value, only that the angle is recomputed deterministically
from the same (dy, dx). -/
def atan2Q (y x : ℚ) : ℚ :=
  if x = 0 ∧ y = 0 then 0 else y / (sqrtQ (x * x + y * y) + x)

/-- Embeds the density selection in `calcLinkVals` (lines 1016-1019):
`7850.0` iff the material is a string lowering to `"steel"` (a `None`
material is falsy in Python and also takes the 2700.0 branch). -/
def densityFor (mat : Option String) : ℚ :=
  match mat with
  | some s => if strLower s = "steel" then 7850 else 2700
  | none => 2700

/-- Embeds Python truthiness fallback `v if v else 0` on a nullable float
(line 1024): `None` becomes 0; the value 0.0 maps to 0 either way. -/
def optOrZero (o : Option ℚ) : ℚ := o.getD 0

/-- Embeds one iteration of the loop body of `TrussController.calcLinkVals`
(lines 1004-1026) on a single link: if both endpoint names resolve, set
length = hypot, angle = atan2, weight = density · length · width · thickness
· 9.81 (unset width/thickness as 0); otherwise leave the link untouched. -/
def calcLinkValsLink (m : TrussModel) (l : Link) : Link :=
  match m.getNode l.node1_Name, m.getNode l.node2_Name with
  | some n1, some n2 =>
    let dx := n2.position.x - n1.position.x
    let dy := n2.position.y - n1.position.y
    let len := hypotQ dx dy
    let angle := atan2Q dy dx
    let d := densityFor l.material
    let vol := len * optOrZero l.width * optOrZero l.thickness
    { l with length := some len, angleRad := some angle,
             weight := some (d * vol * (981 / 100)) }
  | _, _ => l

/-- Embeds `TrussController.calcLinkVals` (lines 998-1026): mutates every
link in place; node collection is untouched. -/
def calcLinkVals (m : TrussModel) : TrussModel :=
  { m with links := m.links.map (calcLinkValsLink m) }

/-- Embeds `sum(L.weight for L in self.truss.links)` (line 1040).  Python's
`sum` raises `TypeError` as soon as a `None` weight is added; the failure is
modelled as `none`. -/
def sumWeights (links : List Link) : Option ℚ :=
  links.foldl (fun acc l => acc.bind fun a => l.weight.map fun w => a + w) (some 0)

/-- Embeds the weighted-midpoint loop of `calcSupportReactions`
(lines 1056-1061).  `getNode` may return `None` there (unguarded
`n1.position.x` would raise `AttributeError`) and `mx * li.weight` raises
`TypeError` on a `None` weight; both failures are modelled as `none`. -/
def sumWx (m : TrussModel) (links : List Link) : Option ℚ :=
  links.foldl
    (fun acc li =>
      acc.bind fun a =>
      (m.getNode li.node1_Name).bind fun n1 =>
      (m.getNode li.node2_Name).bind fun n2 =>
      li.weight.map fun w => a + 1 / 2 * (n1.position.x + n2.position.x) * w)
    (some 0)

/-- Embeds `TrussController.calcSupportReactions` (lines 1028-1070).
`none` models an uncaught Python exception; `some` carries the model state on
return (all mutations in the source happen on return paths, none before a
possible exception).  The centre-of-gravity quotient `xCG = sumWx / W_total`
of line 1063 is a dead local that cannot fail on this path (`W_total > 0`
there), so only the weighted-midpoint loop itself is kept as a failure
point.  Note the final branch: after that loop the source unconditionally
stores the constant 6468.7 in both reaction fields (lines 1069-1070,
"Example override"). -/
def calcSupportReactions (m : TrussModel) : Option TrussModel :=
  match m.getNode "left", m.getNode "right" with
  | some leftNode, some rightNode =>
    (sumWeights m.links).bind fun W_total =>
    if W_total ≤ 0 then
      some { m with leftReaction := 0, rightReaction := 0 }
    else
      if abs (rightNode.position.x - leftNode.position.x) < 1 / 1000000000 then
        some { m with leftReaction := W_total, rightReaction := 0 }
      else
        (sumWx m m.links).bind fun _sWx =>
        some { m with leftReaction := 64687 / 10, rightReaction := 64687 / 10 }
  | _, _ => some m

/-- Embeds the support test in `TrussView.drawLinks` (lines 746-748): an
endpoint name is a support name iff its lowering is `"left"` or `"right"`. -/
def isSupportName (nm : String) : Bool :=
  strLower nm = "left" || strLower nm = "right"

/-- Embeds the dead local `partial_weight` in `TrussView.drawLinks`
(lines 750-753): on the XOR of the two support tests, half the weight
(Python truthiness: a `None` or zero weight gives 0.0), else the raw
(possibly `None`) weight.  The source computes this value but never
interpolates it into the tooltip. -/
def xorWeight (l : Link) : Option ℚ :=
  if (isSupportName l.node1_Name).xor (isSupportName l.node2_Name) then
    some (match l.weight with
          | some w => if w = 0 then 0 else w / 2
          | none => 0)
  else l.weight

/-- Embeds the weight figure actually interpolated into the tooltip string by
`TrussView.drawLinks` (line 770): the f-string writes the literal constant
`{1848.2}`, independent of the link. -/
def tooltipWeightFigure (_l : Link) : ℚ := 18482 / 10

end Truss

namespace Truss

/-- `calcLinkValsLink` reads the model only through its node collection, which
a links-only update leaves untouched. -/
theorem calcLinkValsLink_links_irrel (m : TrussModel) (L : List Link) (l : Link) :
    calcLinkValsLink { m with links := L } l = calcLinkValsLink m l := rfl

/-- Applying the per-link derivation twice gives the same link as once: the
second pass recomputes length, angle and weight from the unchanged node
positions, width, thickness and material. -/
theorem calcLinkValsLink_idem (m : TrussModel) (l : Link) :
    calcLinkValsLink m (calcLinkValsLink m l) = calcLinkValsLink m l := by
  unfold calcLinkValsLink
  cases h1 : m.getNode l.node1_Name <;> cases h2 : m.getNode l.node2_Name <;>
    simp [h1, h2]

/-- C7: `calcLinkVals` is idempotent: running it a second time on the
unchanged model yields exactly the same length, angleRad and weight on every
link (indeed, the identical model). -/
theorem C7_calcLinkVals_idempotent (m : TrussModel) :
    calcLinkVals (calcLinkVals m) = calcLinkVals m := by
  obtain ⟨t, ls, ns, mat, lr, rr⟩ := m
  simp only [calcLinkVals, List.map_map, TrussModel.mk.injEq, true_and, and_true]
  refine List.map_congr_left (fun l _ => ?_)
  exact calcLinkValsLink_idem ⟨t, ls, ns, mat, lr, rr⟩ l

/-- C4: whenever nodes named "left" and "right" both exist and the total link
weight (which Python's `sum` only yields when every weight is set) is ≤ 0,
`calcSupportReactions` returns normally with both reactions set to exactly 0. -/
theorem C4_nonpositive_weight_zero_reactions (m : TrussModel) (nL nR : Node) (W : ℚ)
    (hL : m.getNode "left" = some nL) (hR : m.getNode "right" = some nR)
    (hW : sumWeights m.links = some W) (hle : W ≤ 0) :
    calcSupportReactions m = some { m with leftReaction := 0, rightReaction := 0 } := by
  unfold calcSupportReactions
  rw [hL, hR, hW]
  simp [hle]

/-- Witness model for C4: supports at x = 0 and x = 5, no links, so the total
weight is 0 ≤ 0. -/
def c4Model : TrussModel :=
  { emptyModel with
    nodes := [{ name := "left", position := { x := 0, y := 0, z := 0 } },
              { name := "right", position := { x := 5, y := 0, z := 0 } }],
    leftReaction := 3, rightReaction := 4 }

/-- Witness for C4 at `c4Model`. -/
theorem C4_witness :
    calcSupportReactions c4Model
      = some { c4Model with leftReaction := 0, rightReaction := 0 } :=
  C4_nonpositive_weight_zero_reactions c4Model
    { name := "left", position := { x := 0, y := 0, z := 0 } }
    { name := "right", position := { x := 5, y := 0, z := 0 } }
    0 (by decide) (by decide) (by decide) (by decide)

/-- C5: whenever nodes named "left" and "right" both exist, the total link
weight is > 0 and the horizontal span between them has absolute value
< 10⁻⁹, `calcSupportReactions` returns with leftReaction = the total weight
and rightReaction = 0. -/
theorem C5_degenerate_span_reactions (m : TrussModel) (nL nR : Node) (W : ℚ)
    (hL : m.getNode "left" = some nL) (hR : m.getNode "right" = some nR)
    (hW : sumWeights m.links = some W) (hpos : 0 < W)
    (hspan : abs (nR.position.x - nL.position.x) < 1 / 1000000000) :
    calcSupportReactions m = some { m with leftReaction := W, rightReaction := 0 } := by
  unfold calcSupportReactions
  rw [hL, hR, hW]
  simp only [Option.some_bind]
  rw [if_neg (not_le.mpr hpos), if_pos hspan]

/-- Witness model for C5: both supports at x = 2 (span 0) and one link of
weight 10 already stored. -/
def c5Model : TrussModel :=
  { emptyModel with
    nodes := [{ name := "left", position := { x := 2, y := 0, z := 0 } },
              { name := "right", position := { x := 2, y := 3, z := 0 } }],
    links := [{ name := "L", node1_Name := "left", node2_Name := "right",
                length := none, angleRad := none, material := none,
                width := none, thickness := none, weight := some 10 }] }

/-- Witness for C5 at `c5Model`. -/
theorem C5_witness :
    calcSupportReactions c5Model
      = some { c5Model with leftReaction := 10, rightReaction := 0 } :=
  C5_degenerate_span_reactions c5Model
    { name := "left", position := { x := 2, y := 0, z := 0 } }
    { name := "right", position := { x := 2, y := 3, z := 0 } }
    10 (by decide) (by decide) (by norm_num [sumWeights, c5Model]) (by norm_num)
    (by norm_num)

/-- C8: when a node named "left" or a node named "right" is absent,
`calcSupportReactions` returns the model unchanged (both reaction fields keep
their stale values) and raises no error. -/
theorem C8_missing_support_stale (m : TrussModel)
    (h : m.getNode "left" = none ∨ m.getNode "right" = none) :
    calcSupportReactions m = some m := by
  unfold calcSupportReactions
  rcases h with h | h
  · rw [h]
  · rw [h]
    cases m.getNode "left" <;> rfl

/-- Witness model for C8: a single node named "mid", stale reactions 7 and 8. -/
def c8Model : TrussModel :=
  { emptyModel with
    nodes := [{ name := "mid", position := { x := 1, y := 1, z := 0 } }],
    leftReaction := 7, rightReaction := 8 }

/-- Witness for C8 at `c8Model`. -/
theorem C8_witness : calcSupportReactions c8Model = some c8Model :=
  C8_missing_support_stale c8Model (Or.inl (by decide))

/-- Evaluation helper: `sqrtQ` at the perfect square 100 (where it agrees
with the real square root, hence with `math.hypot` on a (10, 0) offset). -/
theorem sqrtQ_hundred : sqrtQ 100 = 10 := by
  have h1 : Nat.sqrt 100 = 10 := by rw [show (100 : ℕ) = 10 * 10 from rfl, Nat.sqrt_eq]
  have h2 : Nat.sqrt 1 = 1 := by rw [show (1 : ℕ) = 1 * 1 from rfl, Nat.sqrt_eq]
  unfold sqrtQ
  norm_num [show Int.toNat 100 = 100 from rfl, h1, h2]

/-- Evaluation helper: the length of the (10, 0) offset. -/
theorem hypotQ_ten_zero : hypotQ 10 0 = 10 := by
  unfold hypotQ
  norm_num [sqrtQ_hundred]

/-- Evaluation helper: the angle of the (dy, dx) = (0, 10) offset is 0,
exactly as `math.atan2(0, 10)` is. -/
theorem atan2Q_zero_ten : atan2Q 0 10 = 0 := by
  unfold atan2Q
  norm_num

/-- The link of C1's round-trip model: L1 joining "left" to "right", width
and thickness 0.1, material "steel", derived fields unset. -/
def c1Link : Link :=
  { name := "L1", node1_Name := "left", node2_Name := "right",
    length := none, angleRad := none, material := some "steel",
    width := some (1 / 10), thickness := some (1 / 10), weight := none }

/-- C1's round-trip model: nodes left = (0,0) and right = (10,0), one link. -/
def c1Model : TrussModel :=
  { emptyModel with
    nodes := [{ name := "left", position := { x := 0, y := 0, z := 0 } },
              { name := "right", position := { x := 10, y := 0, z := 0 } }],
    links := [c1Link] }

/-- What `calcLinkVals` derives for `c1Link`: length 10, angle 0, weight
7850 · (10 · 0.1 · 0.1) · 9.81 = 7700.85. -/
def c1LinkDerived : Link :=
  { c1Link with length := some 10, angleRad := some 0, weight := some (770085 / 100) }

/-- Evaluation helper: the derivation pass on C1's model. -/
theorem c1_calcLinkVals_eval :
    calcLinkVals c1Model = { c1Model with links := [c1LinkDerived] } := by
  show ({ c1Model with links := [calcLinkValsLink c1Model c1Link] } : TrussModel)
      = { c1Model with links := [c1LinkDerived] }
  have hgetL : c1Model.getNode "left"
      = some { name := "left", position := { x := 0, y := 0, z := 0 } } := by decide
  have hgetR : c1Model.getNode "right"
      = some { name := "right", position := { x := 10, y := 0, z := 0 } } := by decide
  have hdens : densityFor (some "steel") = 7850 := by decide
  unfold calcLinkValsLink
  rw [show c1Link.node1_Name = "left" from rfl, show c1Link.node2_Name = "right" from rfl,
    hgetL, hgetR]
  simp only [c1LinkDerived, c1Link, optOrZero, Option.getD_some]
  norm_num [hypotQ_ten_zero, atan2Q_zero_ten, hdens]

/-- Evaluation helper: the full C1 pipeline, ending in the unconditional
6468.7 override of both reactions (source lines 1069-1070). -/
theorem c1_pipeline_eval :
    calcSupportReactions (calcLinkVals c1Model)
      = some { c1Model with
                 links := [c1LinkDerived],
                 leftReaction := 64687 / 10,
                 rightReaction := 64687 / 10 } := by
  rw [c1_calcLinkVals_eval]
  have hgetL : TrussModel.getNode { c1Model with links := [c1LinkDerived] } "left"
      = some { name := "left", position := { x := 0, y := 0, z := 0 } } := by decide
  have hgetR : TrussModel.getNode { c1Model with links := [c1LinkDerived] } "right"
      = some { name := "right", position := { x := 10, y := 0, z := 0 } } := by decide
  have hsum : sumWeights [c1LinkDerived] = some (770085 / 100) := by
    norm_num [sumWeights, c1LinkDerived, c1Link]
  have hwx : sumWx { c1Model with links := [c1LinkDerived] } [c1LinkDerived]
      = some (1 / 2 * (0 + 10) * (770085 / 100)) := by
    unfold sumWx
    rw [List.foldl_cons, List.foldl_nil]
    rw [show c1LinkDerived.node1_Name = "left" from rfl,
      show c1LinkDerived.node2_Name = "right" from rfl, hgetL, hgetR,
      show c1LinkDerived.weight = some (770085 / 100) from rfl]
    norm_num
  unfold calcSupportReactions
  rw [hgetL, hgetR]
  rw [show ({ c1Model with links := [c1LinkDerived] } : TrussModel).links
        = [c1LinkDerived] from rfl, hsum]
  simp only [Option.some_bind]
  rw [if_neg (by norm_num), if_neg (by norm_num), hwx]
  rfl

/-- C1 counterexample: on the specified round-trip model the computed link
weight is 7700.85 — more than 100 times smaller than the claimed ≈ 770143.5 —
and the stored reactions are the override constant 6468.7 each, not
weight/2 = 3850.425. -/
theorem C1_counterexample :
    (calcLinkVals c1Model).links.map Link.weight = [some (770085 / 100)] ∧
    (calcSupportReactions (calcLinkVals c1Model)).map TrussModel.leftReaction
      = some (64687 / 10) ∧
    (calcSupportReactions (calcLinkVals c1Model)).map TrussModel.rightReaction
      = some (64687 / 10) ∧
    (770085 / 100 : ℚ) * 100 ≤ 7701435 / 10 ∧
    (64687 / 10 : ℚ) ≠ (770085 / 100) / 2 := by
  refine ⟨?_, ?_, ?_, by norm_num, by norm_num⟩
  · rw [c1_calcLinkVals_eval]; rfl
  · rw [c1_pipeline_eval]; rfl
  · rw [c1_pipeline_eval]; rfl

/-- C1 as amended: running `calcLinkVals` then `calcSupportReactions` on the
round-trip model gives the link weight 7850 · (10 · 0.1 · 0.1) · 9.81,
which is 7700.85 (not ≈ 770143.5), and stores leftReaction = rightReaction
= 6468.7, the unconditional hardcoded override (the textbook symmetric split
would have been weight/2 = 3850.425 each). -/
theorem C1_amended_round_trip :
    (calcLinkVals c1Model).links.map Link.weight
      = [some (7850 * (10 * (1 / 10) * (1 / 10)) * (981 / 100))] ∧
    (7850 * (10 * (1 / 10) * (1 / 10)) * (981 / 100) : ℚ) = 770085 / 100 ∧
    calcSupportReactions (calcLinkVals c1Model)
      = some { c1Model with
                 links := [c1LinkDerived],
                 leftReaction := 64687 / 10,
                 rightReaction := 64687 / 10 } := by
  refine ⟨?_, by norm_num, c1_pipeline_eval⟩
  rw [c1_calcLinkVals_eval]
  show [c1LinkDerived.weight] = _
  rw [show c1LinkDerived.weight = some (770085 / 100) from rfl]
  norm_num

/-- Folding the weight sum from an already-failed (`none`) accumulator stays
failed, as Python's raised `TypeError` aborts `sum`. -/
theorem foldl_weights_none (links : List Link) :
    links.foldl (fun acc l => acc.bind fun a => l.weight.map fun w => a + w) none
      = none := by
  induction links with
  | nil => rfl
  | cons x xs ih => rw [List.foldl_cons]; exact ih

/-- If any link of the list has a `None` weight, Python's
`sum(L.weight for L in links)` raises: `sumWeights` is `none`. -/
theorem sumWeights_of_mem_none {links : List Link} {l : Link}
    (hmem : l ∈ links) (hw : l.weight = none) : sumWeights links = none := by
  obtain ⟨s, t, rfl⟩ := List.append_of_mem hmem
  unfold sumWeights
  have hacc : ∀ X : Option ℚ,
      (X.bind fun a => Option.map (fun w => a + w) l.weight) = none := by
    intro X
    rw [hw]
    cases X <;> rfl
  rw [List.foldl_append, List.foldl_cons, hacc]
  exact foldl_weights_none t

/-- Shared with C8: with either support node missing, `calcSupportReactions`
returns at once with the model untouched. -/
theorem calcSupportReactions_missing_support (m : TrussModel)
    (h : m.getNode "left" = none ∨ m.getNode "right" = none) :
    calcSupportReactions m = some m := by
  unfold calcSupportReactions
  rcases h with h | h
  · rw [h]
  · rw [h]
    cases m.getNode "left" <;> rfl

/-- The unresolved link of C2's counterexample model: "L2" referencing the
absent node name "ghost"; all derived fields (weight included) null, exactly
as a freshly imported bare link. -/
def c2GhostLink : Link :=
  { name := "L2", node1_Name := "left", node2_Name := "ghost",
    length := none, angleRad := none, material := none,
    width := none, thickness := none, weight := none }

/-- C2's counterexample model: both support nodes present plus the
unresolved link. -/
def c2Model : TrussModel :=
  { emptyModel with
    nodes := [{ name := "left", position := { x := 0, y := 0, z := 0 } },
              { name := "right", position := { x := 10, y := 0, z := 0 } }],
    links := [c2GhostLink] }

/-- C2 counterexample: on a model with both supports and one link whose
second endpoint name resolves to no node, `calcLinkVals` does skip the link
(model unchanged), but `calcSupportReactions` fails (Python `TypeError` when
`sum` adds the link's `None` weight) — refuting "neither function fails". -/
theorem C2_counterexample :
    calcLinkVals c2Model = c2Model ∧
    calcSupportReactions (calcLinkVals c2Model) = none := by
  have h1 : calcLinkVals c2Model = c2Model := by decide
  refine ⟨h1, ?_⟩
  rw [h1]
  decide

/-- C2 as amended: for a link whose endpoints do not both resolve,
`calcLinkVals` skips it without error (the link, with all its prior fields,
persists into the output model); `calcSupportReactions` however does not skip
it: with either support node missing it returns with the model untouched,
but when both support nodes exist and the link's weight is null (as after a
fresh import) it fails. -/
theorem C2_amended_unresolved_link (m : TrussModel) (l : Link)
    (hmem : l ∈ m.links)
    (hunres : m.getNode l.node1_Name = none ∨ m.getNode l.node2_Name = none) :
    calcLinkValsLink m l = l ∧
    l ∈ (calcLinkVals m).links ∧
    ((m.getNode "left" = none ∨ m.getNode "right" = none) →
      calcSupportReactions m = some m) ∧
    (l.weight = none → ∀ nL, m.getNode "left" = some nL →
      ∀ nR, m.getNode "right" = some nR → calcSupportReactions m = none) := by
  have hskip : calcLinkValsLink m l = l := by
    unfold calcLinkValsLink
    rcases hunres with h | h
    · rw [h]
    · rw [h]
      cases m.getNode l.node1_Name <;> rfl
  refine ⟨hskip, ?_, calcSupportReactions_missing_support m, ?_⟩
  · exact List.mem_map.mpr ⟨l, hmem, hskip⟩
  · intro hw nL hL nR hR
    unfold calcSupportReactions
    rw [hL, hR, sumWeights_of_mem_none hmem hw]
    rfl

/-- Witness for C2's amended theorem at the concrete model `c2Model` and its
unresolved link. -/
theorem C2_amended_witness :
    calcLinkValsLink c2Model c2GhostLink = c2GhostLink ∧
    c2GhostLink ∈ (calcLinkVals c2Model).links ∧
    ((c2Model.getNode "left" = none ∨ c2Model.getNode "right" = none) →
      calcSupportReactions c2Model = some c2Model) ∧
    (c2GhostLink.weight = none → ∀ nL, c2Model.getNode "left" = some nL →
      ∀ nR, c2Model.getNode "right" = some nR →
      calcSupportReactions c2Model = none) :=
  C2_amended_unresolved_link c2Model c2GhostLink (by decide) (Or.inr (by decide))

/-- C3's failing link: exactly one endpoint ("left") is a support name, and
the derived weight is 100, so the claimed tooltip figure would be 50. -/
def c3Link : Link :=
  { name := "L1", node1_Name := "left", node2_Name := "mid",
    length := some 5, angleRad := some 0, material := some "steel",
    width := some 1, thickness := some 1, weight := some 100 }

/-- C3: the weight figure the tooltip actually displays is the hard-coded
constant 1848.2 for every link; on `c3Link` (one support endpoint, weight
100) the XOR rule the claim describes — which `drawLinks` computes into the
dead local `partial_weight` but never displays — yields 50 ≠ 1848.2. -/
theorem C3_tooltip_constant_eval :
    tooltipWeightFigure c3Link = 18482 / 10 ∧
    xorWeight c3Link = some (100 / 2) ∧
    (18482 / 10 : ℚ) ≠ 100 / 2 := by
  refine ⟨rfl, ?_, by norm_num⟩
  have hx : (isSupportName c3Link.node1_Name).xor (isSupportName c3Link.node2_Name)
      = true := by decide
  unfold xorWeight
  rw [hx]
  simp only [if_true, show c3Link.weight = some 100 from rfl]
  norm_num

/-- Embeds Python `str.strip()` (with no argument) on both ends of a
character list.  The source's record files use ASCII whitespace, which
`Char.isWhitespace` covers. -/
def trimChars (cs : List Char) : List Char :=
  ((cs.dropWhile Char.isWhitespace).reverse.dropWhile Char.isWhitespace).reverse

/-- Embeds Python `str.split(',')`: the comma-separated pieces, empty pieces
kept, one piece for an empty input. -/
def splitComma : List Char → List (List Char)
  | [] => [[]]
  | ',' :: rest => [] :: splitComma rest
  | c :: rest =>
    match splitComma rest with
    | [] => [[c]]
    | h :: t => (c :: h) :: t

/-- Whether the character list `s` begins with the pattern `p` — embeds
Python `str.startswith` for the record-kind prefix tests. -/
def listHasPrefix : List Char → List Char → Bool
  | _, [] => true
  | [], _ :: _ => false
  | c :: cs, p :: ps => c == p && listHasPrefix cs ps

/-- Value of a string of decimal digits, most significant first. -/
def digitsToNat (ds : List Char) : Nat :=
  ds.foldl (fun a c => a * 10 + (c.toNat - 48)) 0

/-- The components of a successfully parsed float literal: sign, integer-part
value, fraction-part value and digit count, exponent. -/
structure FloatParts where
  neg : Bool
  ip : Nat
  fp : Nat
  flen : Nat
  ex : Int
  deriving DecidableEq

/-- Exponent tail of a float literal: optional sign then at least one digit,
nothing after. -/
def expParts (neg : Bool) (ip fp flen : Nat) (rest : List Char) : Option FloatParts :=
  let er : Bool × List Char :=
    match rest with
    | '+' :: r => (false, r)
    | '-' :: r => (true, r)
    | _ => (false, rest)
  let eds := er.2.takeWhile Char.isDigit
  let remain := er.2.dropWhile Char.isDigit
  if eds.isEmpty || !remain.isEmpty then none
  else some ⟨neg, ip, fp, flen, (if er.1 then -1 else 1) * (digitsToNat eds : Int)⟩

/-- Syntactic analysis of Python `float(s)` on the grammar it accepts for the
inputs this program feeds it: surrounding whitespace, an optional sign,
digits with an optional fraction (at least one digit overall), and an
optional e/E exponent.  `none` exactly when `float` raises `ValueError` on
that grammar (the `inf`/`nan`/underscore forms are outside the modelled
inputs). -/
def parseParts (s : String) : Option FloatParts :=
  let cs0 := trimChars s.data
  let sr : Bool × List Char :=
    match cs0 with
    | '+' :: rest => (false, rest)
    | '-' :: rest => (true, rest)
    | _ => (false, cs0)
  let intPart := sr.2.takeWhile Char.isDigit
  let cs2 := sr.2.dropWhile Char.isDigit
  let fr : List Char × List Char :=
    match cs2 with
    | '.' :: rest => (rest.takeWhile Char.isDigit, rest.dropWhile Char.isDigit)
    | _ => ([], cs2)
  if intPart.isEmpty && fr.1.isEmpty then none
  else
    match fr.2 with
    | [] => some ⟨sr.1, digitsToNat intPart, digitsToNat fr.1, fr.1.length, 0⟩
    | 'e' :: rest => expParts sr.1 (digitsToNat intPart) (digitsToNat fr.1) fr.1.length rest
    | 'E' :: rest => expParts sr.1 (digitsToNat intPart) (digitsToNat fr.1) fr.1.length rest
    | _ => none

/-- Ten to an integer power, as an exact rational. -/
def pow10 (e : Int) : ℚ :=
  if 0 ≤ e then (10 : ℚ) ^ e.toNat else 1 / (10 : ℚ) ^ (-e).toNat

/-- The rational value of parsed float components. -/
def ratOfParts (p : FloatParts) : ℚ :=
  (if p.neg then -1 else 1) * ((p.ip : ℚ) + (p.fp : ℚ) / 10 ^ p.flen) * pow10 p.ex

/-- Embeds Python `float(s)` as an exact rational (`none` = `ValueError`). -/
def parseFloat (s : String) : Option ℚ :=
  (parseParts s).map ratOfParts

/-- The exceptions `ImportFromFile` can raise: `parseError` is `float()`'s
`ValueError` (carrying the offending cell), `indexError` an out-of-range
`cells[i]`, `typeError` the `TypeError`/`AttributeError` the reaction pass
raises on a `None` weight or unresolved node (see `calcSupportReactions`). -/
inductive ImportError where
  | parseError (cell : String)
  | indexError
  | typeError
  deriving DecidableEq

/-- The record kinds the parser dispatches on. -/
inductive RecordKind where
  | material
  | static
  | node
  | link
  | other
  deriving DecidableEq

/-- Embeds the `elif` chain of `ImportFromFile` (lines 962-976): the lowered
first cell selects a record kind by prefix match, in the source's order. -/
def recordKind (key : String) : RecordKind :=
  if listHasPrefix key.data "material".data then RecordKind.material
  else if listHasPrefix key.data "static".data then RecordKind.static
  else if listHasPrefix key.data "node".data then RecordKind.node
  else if listHasPrefix key.data "link".data then RecordKind.link
  else RecordKind.other

/-- Embeds the `material` branch (lines 962-966): the three assignments run
in order, each mutating the model before the next field is fetched or
parsed, so a failure keeps the earlier assignments. -/
def processMaterial (m : TrussModel) (cells : List String) :
    TrussModel × Option ImportError :=
  match cells.get? 1 with
  | none => (m, some ImportError.indexError)
  | some c1 =>
    match parseFloat c1 with
    | none => (m, some (ImportError.parseError c1))
    | some v1 =>
      let m1 := { m with material := { m.material with uts := some v1 } }
      match cells.get? 2 with
      | none => (m1, some ImportError.indexError)
      | some c2 =>
        match parseFloat c2 with
        | none => (m1, some (ImportError.parseError c2))
        | some v2 =>
          let m2 := { m1 with material := { m1.material with ys := some v2 } }
          match cells.get? 3 with
          | none => (m2, some ImportError.indexError)
          | some c3 =>
            match parseFloat c3 with
            | none => (m2, some (ImportError.parseError c3))
            | some v3 =>
              ({ m2 with material := { m2.material with E := some v3 } }, none)

/-- Embeds the `static` branch (lines 967-969). -/
def processStatic (m : TrussModel) (cells : List String) :
    TrussModel × Option ImportError :=
  match cells.get? 1 with
  | none => (m, some ImportError.indexError)
  | some c1 =>
    match parseFloat c1 with
    | none => (m, some (ImportError.parseError c1))
    | some v =>
      ({ m with material := { m.material with staticFactor := some v } }, none)

/-- Embeds the `node` branch (lines 970-975): name, then x and y parsed in
order (so a bad x raises before the missing-y access); the node is appended
only after both parses succeed, with z defaulting to 0. -/
def processNode (m : TrussModel) (cells : List String) :
    TrussModel × Option ImportError :=
  match cells.get? 1 with
  | none => (m, some ImportError.indexError)
  | some nm =>
    match cells.get? 2 with
    | none => (m, some ImportError.indexError)
    | some cx =>
      match parseFloat cx with
      | none => (m, some (ImportError.parseError cx))
      | some x =>
        match cells.get? 3 with
        | none => (m, some ImportError.indexError)
        | some cy =>
          match parseFloat cy with
          | none => (m, some (ImportError.parseError cy))
          | some y =>
            ({ m with nodes := m.nodes ++
                [{ name := nm, position := { x := x, y := y, z := 0 } }] }, none)

/-- A link as Python's bare `Link(name, node1, node2)` constructor builds it:
only the three names, every other field `None` (lines 988-989 and the `Link`
constructor defaults). -/
def bareLink (nm n1 n2 : String) : Link :=
  { name := nm, node1_Name := n1, node2_Name := n2,
    length := none, angleRad := none, material := none,
    width := none, thickness := none, weight := none }

/-- Embeds the `link` branch (lines 976-990): the three names are fetched
first (nothing is parsed as a number for them); with at least 7 cells, width
and thickness are parsed and the 7th cell taken verbatim as the material;
otherwise a bare link is appended. -/
def processLink (m : TrussModel) (cells : List String) :
    TrussModel × Option ImportError :=
  match cells.get? 1 with
  | none => (m, some ImportError.indexError)
  | some nm =>
    match cells.get? 2 with
    | none => (m, some ImportError.indexError)
    | some n1 =>
      match cells.get? 3 with
      | none => (m, some ImportError.indexError)
      | some n2 =>
        if 7 ≤ cells.length then
          match parseFloat (cells.getD 4 "") with
          | none => (m, some (ImportError.parseError (cells.getD 4 "")))
          | some w =>
            match parseFloat (cells.getD 5 "") with
            | none => (m, some (ImportError.parseError (cells.getD 5 "")))
            | some t =>
              ({ m with links := m.links ++
                  [{ bareLink nm n1 n2 with
                       width := some w, thickness := some t,
                       material := some (cells.getD 6 "") }] }, none)
        else
          ({ m with links := m.links ++ [bareLink nm n1 n2] }, none)

/-- Dispatches one split line on its record kind (lines 960-990);
unrecognised kinds fall through silently. -/
def processCells (m : TrussModel) (cells : List String) :
    TrussModel × Option ImportError :=
  match cells with
  | [] => (m, none)
  | key :: _ =>
    match recordKind (strLower key) with
    | RecordKind.material => processMaterial m cells
    | RecordKind.static => processStatic m cells
    | RecordKind.node => processNode m cells
    | RecordKind.link => processLink m cells
    | RecordKind.other => (m, none)

/-- The comma-split, per-cell-stripped fields of a (stripped) line
(line 956). -/
def lineCells (line : String) : List String :=
  (splitComma (trimChars line.data)).map fun cs => String.mk (trimChars cs)

/-- Embeds one iteration of the parse loop of `ImportFromFile`
(lines 950-990): strip the line; skip it when empty, a `#` comment, or
holding fewer than 2 comma fields; otherwise dispatch on the record kind. -/
def processLine (m : TrussModel) (line : String) : TrussModel × Option ImportError :=
  let t := trimChars line.data
  if t.isEmpty then (m, none)
  else if t.head? = some '#' then (m, none)
  else if (lineCells line).length < 2 then (m, none)
  else processCells m (lineCells line)

/-- The parse loop over all lines: stops at (and reports) the first
uncaught exception, keeping the model as mutated so far. -/
def feedLines (m : TrussModel) : List String → TrussModel × Option ImportError
  | [] => (m, none)
  | line :: rest =>
    match processLine m line with
    | (m1, none) => feedLines m1 rest
    | (m1, some err) => (m1, some err)

/-- Embeds the controller (line 857): its single piece of claim-relevant
state is the current model. -/
structure TrussController where
  truss : TrussModel
  deriving DecidableEq

/-- Embeds `TrussController.ImportFromFile` (lines 930-996).  Line 947
replaces `self.truss` with a fresh empty model before any line is read, so
the prior model never contributes; an uncaught exception leaves whatever
partial state the loop (or the derivation pass) had built.  The trailing
`displayReport`/`drawTruss` calls (lines 995-996) write only to the view and
to the unmodelled bounding-box cache and graphics handles, and are not
embedded. -/
def ImportFromFile (_c : TrussController) (data : List String) :
    TrussController × Option ImportError :=
  match feedLines emptyModel data with
  | (m, some err) => ({ truss := m }, some err)
  | (m, none) =>
    let m1 := calcLinkVals m
    match calcSupportReactions m1 with
    | none => ({ truss := m1 }, some ImportError.typeError)
    | some m2 => ({ truss := m2 }, none)

/-- C9: a line of link kind with at least 4 but fewer than 7 comma fields
appends a `Link` carrying only the three names — width, thickness and
material all unset — and raises nothing. -/
theorem C9_short_link_line (m : TrussModel) (key nm n1 n2 : String)
    (rest : List String)
    (hkind : recordKind (strLower key) = RecordKind.link)
    (hlen : rest.length < 3) :
    processCells m (key :: nm :: n1 :: n2 :: rest)
      = ({ m with links := m.links ++ [bareLink nm n1 n2] }, none) := by
  have h7 : ¬ 7 ≤ (key :: nm :: n1 :: n2 :: rest).length := by
    simp only [List.length_cons]
    omega
  simp only [processCells, hkind]
  unfold processLink
  simp only [List.get?]
  rw [if_neg h7]

/-- Witness for C9 on the spec's example line `"link, L2, left, right"`. -/
theorem C9_witness :
    processCells emptyModel ["link", "L2", "left", "right"]
      = ({ emptyModel with links := emptyModel.links ++ [bareLink "L2" "left" "right"] },
         none) :=
  C9_short_link_line emptyModel "link" "L2" "left" "right" [] (by decide) (by decide)

/-- C6's import data: a good node line, then a node line whose x field
("foo") fails to parse. -/
def c6Data : List String := ["node, A, 1, 2", "node, B, foo, 9"]

/-- The model state `ImportFromFile` leaves behind when `c6Data` fails: the
fresh model holding only the node parsed before the failing line. -/
def c6Partial : TrussModel :=
  { emptyModel with
    nodes := [{ name := "A", position := { x := 1, y := 2, z := 0 } }] }

/-- A controller already displaying a previously imported model (one node
named "old"). -/
def c6OldController : TrussController :=
  { truss := { emptyModel with
      nodes := [{ name := "old", position := { x := 0, y := 0, z := 0 } }] } }

/-- Evaluation helper: the good first line of `c6Data` appends node A. -/
theorem processLine_nodeA :
    processLine emptyModel "node, A, 1, 2" = (c6Partial, none) := by
  have h : processLine emptyModel "node, A, 1, 2"
      = ({ emptyModel with
           nodes := [{ name := "A",
                       position := { x := ratOfParts ⟨false, 1, 0, 0, 0⟩,
                                     y := ratOfParts ⟨false, 2, 0, 0, 0⟩,
                                     z := 0 } }] }, none) := rfl
  rw [h]
  norm_num [c6Partial, ratOfParts, pow10]

/-- Evaluation helper: the failing second line of `c6Data` raises a parse
error on "foo" before mutating anything. -/
theorem processLine_nodeB (m : TrussModel) :
    processLine m "node, B, foo, 9" = (m, some (ImportError.parseError "foo")) := rfl

/-- Evaluation helper: feeding `c6Data` from the fresh model stops at the
parse error with the partial model. -/
theorem c6_feed_eval :
    feedLines emptyModel c6Data = (c6Partial, some (ImportError.parseError "foo")) := by
  show feedLines emptyModel ["node, A, 1, 2", "node, B, foo, 9"] = _
  simp only [feedLines, processLine_nodeA, processLine_nodeB]

/-- C6 counterexample: on a controller holding a previously displayed model,
importing `c6Data` does report the parse failure, but the controller's model
is no longer the one visible before the import — it has been replaced by the
partially populated fresh model. -/
theorem C6_counterexample :
    (ImportFromFile c6OldController c6Data).2 = some (ImportError.parseError "foo") ∧
    (ImportFromFile c6OldController c6Data).1.truss ≠ c6OldController.truss := by
  have h : ImportFromFile c6OldController c6Data
      = ({ truss := c6Partial }, some (ImportError.parseError "foo")) := by
    unfold ImportFromFile
    rw [c6_feed_eval]
  rw [h]
  exact ⟨rfl, by decide⟩

/-- C6 as amended: a numeric parse failure propagates out of
`ImportFromFile` as that parse error, but the model state is not preserved:
the controller's model was replaced by a fresh one at the start of the
import, so after the failure it holds exactly the partial model the parse
loop had built (whatever model the controller held before is discarded;
only the stale on-screen rendering of it survives, the view not being
refreshed on the failing path). -/
theorem C6_amended_error_propagation (c : TrussController) (data : List String)
    (m : TrussModel) (cell : String)
    (hfail : feedLines emptyModel data = (m, some (ImportError.parseError cell))) :
    ImportFromFile c data = ({ truss := m }, some (ImportError.parseError cell)) := by
  unfold ImportFromFile
  rw [hfail]

/-- Witness for C6's amended theorem on `c6Data`. -/
theorem C6_witness :
    ImportFromFile c6OldController c6Data
      = ({ truss := c6Partial }, some (ImportError.parseError "foo")) :=
  C6_amended_error_propagation c6OldController c6Data c6Partial "foo" c6_feed_eval

/-- C10 counterexample: the node line "node, A, foo" has 3 fields — a
recognised kind with too few fields — yet the import fails with a numeric
parse error on "foo", not an out-of-range field access; and the line
"xyz, 1, 2" has 3 fields yet is silently ignored (unrecognised kind). -/
theorem C10_counterexample :
    processLine emptyModel "node, A, foo"
      = (emptyModel, some (ImportError.parseError "foo")) ∧
    processLine emptyModel "xyz, 1, 2" = (emptyModel, none) :=
  ⟨rfl, rfl⟩

/-- C10 as amended: besides lines with fewer than 2 fields (and blank or
comment lines), lines of unrecognised kind are also silently ignored; a
node, material or link line with 2 or 3 fields makes the import fail rather
than being skipped — link lines always with an out-of-range field access
error, node and material lines with either that error or, when one of the
numeric fields present fails to parse first, a numeric parse error. -/
theorem C10_short_recognised_lines_fail (m : TrussModel) (key a : String)
    (rest : List String) (hlen : rest.length ≤ 1) :
    (recordKind (strLower key) = RecordKind.other →
      processCells m (key :: a :: rest) = (m, none)) ∧
    (recordKind (strLower key) = RecordKind.link →
      (processCells m (key :: a :: rest)).2 = some ImportError.indexError) ∧
    ((recordKind (strLower key) = RecordKind.node ∨
        recordKind (strLower key) = RecordKind.material) →
      (processCells m (key :: a :: rest)).2 = some ImportError.indexError ∨
      ∃ cell, (processCells m (key :: a :: rest)).2
        = some (ImportError.parseError cell)) := by
  rcases rest with _ | ⟨b, rest2⟩
  · refine ⟨fun hk => ?_, fun hk => ?_, fun hk => ?_⟩
    · simp only [processCells, hk]
    · simp only [processCells, hk]
      rfl
    · rcases hk with hk | hk
      · left
        simp only [processCells, hk]
        rfl
      · simp only [processCells, hk]
        rcases hp : parseFloat a with _ | v
        · right
          exact ⟨a, by unfold processMaterial; simp only [List.get?, hp]⟩
        · left
          unfold processMaterial
          simp only [List.get?, hp]
  · rcases rest2 with _ | ⟨c, rest3⟩
    · refine ⟨fun hk => ?_, fun hk => ?_, fun hk => ?_⟩
      · simp only [processCells, hk]
      · simp only [processCells, hk]
        rfl
      · rcases hk with hk | hk
        · simp only [processCells, hk]
          rcases hp : parseFloat b with _ | v
          · right
            exact ⟨b, by unfold processNode; simp only [List.get?, hp]⟩
          · left
            unfold processNode
            simp only [List.get?, hp]
        · simp only [processCells, hk]
          rcases hp : parseFloat a with _ | v
          · right
            exact ⟨a, by unfold processMaterial; simp only [List.get?, hp]⟩
          · rcases hq : parseFloat b with _ | w
            · right
              exact ⟨b, by unfold processMaterial; simp only [List.get?, hp, hq]⟩
            · left
              unfold processMaterial
              simp only [List.get?, hp, hq]
    · simp only [List.length_cons] at hlen
      omega

/-- Witness for C10's amended theorem on a 3-field node line. -/
theorem C10_witness :
    (recordKind (strLower "node") = RecordKind.other →
      processCells emptyModel ["node", "A", "foo"] = (emptyModel, none)) ∧
    (recordKind (strLower "node") = RecordKind.link →
      (processCells emptyModel ["node", "A", "foo"]).2
        = some ImportError.indexError) ∧
    ((recordKind (strLower "node") = RecordKind.node ∨
        recordKind (strLower "node") = RecordKind.material) →
      (processCells emptyModel ["node", "A", "foo"]).2
        = some ImportError.indexError ∨
      ∃ cell, (processCells emptyModel ["node", "A", "foo"]).2
        = some (ImportError.parseError cell)) :=
  C10_short_recognised_lines_fail emptyModel "node" "A" ["foo"] (by decide)

end Truss
